import Mathlib

/-!
# Verification of the energy-dashboard-backend protocol core

Shallow embedding of the outbound-authentication and response-normalization
logic of the energy-dashboard backend (`src/api/index.js`, plus the discovery
step of the `/api/myenergi` handler in `src/unnamed/part_002`), together with
proofs settling the specification claims about it.

The backend calls `crypto.createHash('md5').update(s).digest('hex')` from the
Node standard library; that library function is modelled here by a full,
executable MD5 implementation (`md5Hex`) over UTF-8 byte lists, with machine
words represented as `Nat` reduced `% 2^32` where overflow matters.
-/

namespace EnergyDashboard

/-- 32-bit rotate left, on naturals below `2^32`. -/
def rotl32 (x n : Nat) : Nat :=
  ((x <<< n) ||| (x >>> (32 - n))) % 4294967296

/-- The 64 MD5 round constants `K[i] = floor(|sin(i+1)| * 2^32)`. -/
def md5K : List Nat :=
  [0xd76aa478, 0xe8c7b756, 0x242070db, 0xc1bdceee,
   0xf57c0faf, 0x4787c62a, 0xa8304613, 0xfd469501,
   0x698098d8, 0x8b44f7af, 0xffff5bb1, 0x895cd7be,
   0x6b901122, 0xfd987193, 0xa679438e, 0x49b40821,
   0xf61e2562, 0xc040b340, 0x265e5a51, 0xe9b6c7aa,
   0xd62f105d, 0x02441453, 0xd8a1e681, 0xe7d3fbc8,
   0x21e1cde6, 0xc33707d6, 0xf4d50d87, 0x455a14ed,
   0xa9e3e905, 0xfcefa3f8, 0x676f02d9, 0x8d2a4c8a,
   0xfffa3942, 0x8771f681, 0x6d9d6122, 0xfde5380c,
   0xa4beea44, 0x4bdecfa9, 0xf6bb4b60, 0xbebfbc70,
   0x289b7ec6, 0xeaa127fa, 0xd4ef3085, 0x04881d05,
   0xd9d4d039, 0xe6db99e5, 0x1fa27cf8, 0xc4ac5665,
   0xf4292244, 0x432aff97, 0xab9423a7, 0xfc93a039,
   0x655b59c3, 0x8f0ccc92, 0xffeff47d, 0x85845dd1,
   0x6fa87e4f, 0xfe2ce6e0, 0xa3014314, 0x4e0811a1,
   0xf7537e82, 0xbd3af235, 0x2ad7d2bb, 0xeb86d391]

/-- The 64 MD5 per-round left-rotation amounts. -/
def md5S : List Nat :=
  [7, 12, 17, 22, 7, 12, 17, 22, 7, 12, 17, 22, 7, 12, 17, 22,
   5, 9, 14, 20, 5, 9, 14, 20, 5, 9, 14, 20, 5, 9, 14, 20,
   4, 11, 16, 23, 4, 11, 16, 23, 4, 11, 16, 23, 4, 11, 16, 23,
   6, 10, 15, 21, 6, 10, 15, 21, 6, 10, 15, 21, 6, 10, 15, 21]

/-- Little-endian 32-bit word `i` of a 64-byte block. -/
def leWord (bs : List Nat) (i : Nat) : Nat :=
  bs.getD (4 * i) 0 + 256 * bs.getD (4 * i + 1) 0 +
    65536 * bs.getD (4 * i + 2) 0 + 16777216 * bs.getD (4 * i + 3) 0

/-- One MD5 round: `M` fetches message words, `st = (a, b, c, d)`, `i` the
round index. -/
def md5Round (M : Nat → Nat) (st : Nat × Nat × Nat × Nat) (i : Nat) :
    Nat × Nat × Nat × Nat :=
  let a := st.1
  let b := st.2.1
  let c := st.2.2.1
  let d := st.2.2.2
  let fg : Nat × Nat :=
    if i < 16 then ((b &&& c) ||| ((b ^^^ 4294967295) &&& d), i)
    else if i < 32 then ((d &&& b) ||| ((d ^^^ 4294967295) &&& c), (5 * i + 1) % 16)
    else if i < 48 then (b ^^^ c ^^^ d, (3 * i + 5) % 16)
    else (c ^^^ (b ||| (d ^^^ 4294967295)), (7 * i) % 16)
  let f := (fg.1 + a + md5K.getD i 0 + M fg.2) % 4294967296
  (d, (b + rotl32 f (md5S.getD i 0)) % 4294967296, b, c)

/-- Process one 64-byte block: run the 64 rounds and add the result into the
running state, modulo `2^32` per word. -/
def md5ProcessBlock (st : Nat × Nat × Nat × Nat) (block : List Nat) :
    Nat × Nat × Nat × Nat :=
  let r := (List.range 64).foldl (md5Round (leWord block)) st
  ((st.1 + r.1) % 4294967296, (st.2.1 + r.2.1) % 4294967296,
   (st.2.2.1 + r.2.2.1) % 4294967296, (st.2.2.2 + r.2.2.2) % 4294967296)

/-- `n` bytes of `v`, little-endian. -/
def leBytes (n v : Nat) : List Nat :=
  (List.range n).map (fun i => (v >>> (8 * i)) % 256)

/-- MD5 padding: append `0x80`, zero-pad to 56 mod 64, then the original bit
length as a 64-bit little-endian quantity. -/
def padMsg (m : List Nat) : List Nat :=
  m ++ [128] ++ List.replicate ((119 - m.length % 64) % 64) 0 ++
    leBytes 8 ((m.length * 8) % 18446744073709551616)

/-- Fold `md5ProcessBlock` over successive 64-byte chunks; the first argument
is structural-recursion fuel (one unit per block). -/
def md5Blocks : Nat → (Nat × Nat × Nat × Nat) → List Nat → Nat × Nat × Nat × Nat
  | 0, st, _ => st
  | _ + 1, st, [] => st
  | fuel + 1, st, l => md5Blocks fuel (md5ProcessBlock st (l.take 64)) (l.drop 64)

/-- The MD5 initial state. -/
def md5Init : Nat × Nat × Nat × Nat :=
  (0x67452301, 0xefcdab89, 0x98badcfe, 0x10325476)

/-- MD5 of a byte list: sixteen output bytes. -/
def md5Bytes (msg : List Nat) : List Nat :=
  let padded := padMsg msg
  let st := md5Blocks (padded.length / 64) md5Init padded
  leBytes 4 st.1 ++ leBytes 4 st.2.1 ++ leBytes 4 st.2.2.1 ++ leBytes 4 st.2.2.2

/-- UTF-8 encoding of a single character, as bytes. -/
def utf8Char (c : Char) : List Nat :=
  let n := c.toNat
  if n < 128 then [n]
  else if n < 2048 then [192 ||| (n >>> 6), 128 ||| (n &&& 63)]
  else if n < 65536 then
    [224 ||| (n >>> 12), 128 ||| ((n >>> 6) &&& 63), 128 ||| (n &&& 63)]
  else
    [240 ||| (n >>> 18), 128 ||| ((n >>> 12) &&& 63),
     128 ||| ((n >>> 6) &&& 63), 128 ||| (n &&& 63)]

/-- UTF-8 bytes of a string. -/
def strBytes (s : String) : List Nat := (s.data.map utf8Char).flatten

/-- Lowercase hexadecimal digit for a nibble (values above 15 clamp to `'f'`;
they never occur). -/
def hexDigit : Nat → Char
  | 0 => '0' | 1 => '1' | 2 => '2' | 3 => '3'
  | 4 => '4' | 5 => '5' | 6 => '6' | 7 => '7'
  | 8 => '8' | 9 => '9' | 10 => 'a' | 11 => 'b'
  | 12 => 'c' | 13 => 'd' | 14 => 'e' | _ => 'f'

/-- Two lowercase hex characters for one byte. -/
def byteHex (b : Nat) : List Char := [hexDigit (b / 16), hexDigit (b % 16)]

/-- Model of Node's `crypto.createHash('md5').update(s).digest('hex')`:
MD5 of the UTF-8 bytes of `s`, as a lowercase-hex string. -/
def md5Hex (s : String) : String :=
  String.mk (((md5Bytes (strBytes s)).map byteHex).flatten)

set_option maxRecDepth 10000 in
/-- Known-answer check for the MD5 model (RFC 1321 test suite). -/
theorem md5Hex_kat_abc : md5Hex "abc" = "900150983cd24fb0d6963f7d28e17f72" := by
  decide

set_option maxRecDepth 10000 in
/-- Known-answer check for the MD5 model: the empty message. -/
theorem md5Hex_kat_empty : md5Hex "" = "d41d8cd98f00b204e9800998ecf8427e" := by
  decide

/-!
## Digest response computation (`src/api/index.js`, lines 59-64)

The deterministic core of `performMyenergiRequest`'s step 4: the client
nonce `cnonce` is generated by `crypto.randomBytes` in the source and is
taken here as an explicit parameter, so the remaining computation is a pure
function of its inputs. The challenge's `opaque` parameter enters only the
final `Authorization` header text, never the hashes.
-/

/-- `ha1`, `ha2`, `nc` and `responseHash` of `performMyenergiRequest`,
exactly as computed by the source's template-literal concatenations. -/
def digestResponse (username password realm nonce qop cnonce method uri : String) :
    String :=
  let ha1 := md5Hex (username ++ ":" ++ realm ++ ":" ++ password)
  let ha2 := md5Hex (method ++ ":" ++ uri)
  let nc := "00000001"
  md5Hex (ha1 ++ ":" ++ nonce ++ ":" ++ nc ++ ":" ++ cnonce ++ ":" ++ qop ++ ":" ++ ha2)

/-!
## Fox ESS signed-request builder (`src/api/index.js`, lines 114-119)

`timestamp = new Date().getTime()` is an integer count of milliseconds; the
source interpolates it into the signature string in decimal, which is
`toString` here.
-/

/-- The `signature` header of the `/api/foxess` handler:
`md5(path "\r\n" token "\r\n" timestamp)` in lowercase hex. -/
def foxSignature (token path : String) (timestamp : Nat) : String :=
  md5Hex (path ++ "\r\n" ++ token ++ "\r\n" ++ toString timestamp)

/-!
## Model of JavaScript `Number.prototype.toFixed(2)`

The source formats kilowatt figures with `x.toFixed(2)`. ECMAScript defines
`toFixed` for negative `x` as `"-"` prepended to `(-x).toFixed`, and for
nonnegative `x` picks the integer `n` minimising `|n / 100 - x|`, choosing
the larger `n` on a tie. That is modelled here over exact rationals; the
IEEE-754 rounding of the input double is not modelled, which can differ only
when `100 * x` lands exactly on a midpoint, and no claim input does.
-/

/-- Exact rational division in the kernel-reducible normal form
`Rat.divInt`; equal to `x / y` by `ratDiv_eq` (the typeclass arithmetic on
`ℚ` is irreducible and cannot be evaluated in proofs). -/
def ratDiv (x y : ℚ) : ℚ :=
  Rat.divInt (x.num * (y.den : Int)) ((x.den : Int) * y.num)

/-- Exact rational negation in the same reducible normal form. -/
def ratNeg (x : ℚ) : ℚ := Rat.divInt (-x.num) (x.den : Int)

/-- Render `r < 100` as exactly two decimal digits. -/
def twoDigits (r : Nat) : String :=
  (if r < 10 then "0" else "") ++ toString r

/-- `toFixed(2)` for a nonnegative rational: round `100 * x` half-up —
`n = floor(100 * x + 1/2)`, computed over the common denominator as
`(200 * num + den) fdiv (2 * den)` — and print `n` with two digits after
the point. -/
def toFixed2Pos (x : ℚ) : String :=
  let n := (Int.fdiv (200 * x.num + (x.den : Int)) (2 * (x.den : Int))).toNat
  toString (n / 100) ++ "." ++ twoDigits (n % 100)

/-- Model of JavaScript `x.toFixed(2)` over exact rationals (`x < 0` is
tested on the numerator's sign). -/
def toFixed2 (x : ℚ) : String :=
  if x.num < 0 then "-" ++ toFixed2Pos (ratNeg x) else toFixed2Pos x

/-- `ratDiv` is division on `ℚ`. -/
theorem ratDiv_eq (x y : ℚ) : ratDiv x y = x / y := by
  rcases eq_or_ne y 0 with rfl | hy
  · simp [ratDiv]
  · have hxd : ((x.den : ℚ)) ≠ 0 := by
      exact_mod_cast x.den_nz
    have hyd : ((y.den : ℚ)) ≠ 0 := by
      exact_mod_cast y.den_nz
    have hyn : ((y.num : ℚ)) ≠ 0 := by
      exact_mod_cast Rat.num_ne_zero.mpr hy
    rw [ratDiv, Rat.divInt_eq_div]
    push_cast
    conv_rhs => rw [← Rat.num_div_den x, ← Rat.num_div_den y]
    field_simp

/-!
## `/api/myenergi` response normalization (`src/api/index.js`, lines 89-98)

The handler reads `response.data.eddi[0]`. A JSON body is modelled by
whether the `eddi` key is present (`Option`) and, if so, by its array of
records; numeric JSON values are modelled as exact rationals. When the key
is absent, `response.data.eddi` is `undefined` and indexing it raises
`TypeError: Cannot read properties of undefined (reading '0')`, which the
route's `catch` turns into an HTTP 500 with that message; an empty array
makes `eddiData` undefined, and the `if (!eddiData)` guard answers 404.
-/

/-- One record of the upstream `eddi` array: diverted power in watts and the
enumerated device status. -/
structure EddiRecord where
  div : ℚ
  stat : ℚ
deriving DecidableEq

/-- The upstream body as seen by the handler: the `eddi` key may be absent. -/
structure MyenergiBody where
  eddi : Option (List EddiRecord)
deriving DecidableEq

/-- The normalized vendor-1 snapshot sent with HTTP 200. -/
structure EddiSnapshot where
  diversion_kw : String
  status : ℚ
deriving DecidableEq

/-- Outcome of the `/api/myenergi` handler on a successfully fetched body. -/
inductive MyenergiRouteResult where
  | ok (snap : EddiSnapshot)
  | notFound (msg : String)
  | serverError (msg : String)
deriving DecidableEq

/-- The JavaScript `TypeError` message raised by `undefined[0]`. -/
def typeErrorIndex0 : String := "Cannot read properties of undefined (reading '0')"

/-- The `/api/myenergi` handler's normalization of an upstream body. -/
def myenergiRoute (body : MyenergiBody) : MyenergiRouteResult :=
  match body.eddi with
  | none => .serverError typeErrorIndex0
  | some [] => .notFound "Eddi data not found in API response."
  | some (e :: _) => .ok ⟨toFixed2 (ratDiv e.div 1000), e.stat⟩

/-!
## `/api/foxess` response normalization (`src/api/index.js`, lines 136-149)

`result` and `result.datas` may each be absent; each metric is looked up
with `datas.find(d => d.variable === name)?.value || 0`. For the rational
values modelled here, `|| 0` collapses an absent record (undefined) to `0`
and leaves a present numeric value unchanged except that `0` maps to `0`
(JavaScript's other falsy values are not numbers and cannot occur for a
numeric field). `solar_kw` and `grid_kw` are rendered through `toFixed(2)`,
`battery_percent` is the raw looked-up value.
-/

/-- One `{variable, value}` record of the Fox ESS `datas` array. The source
field name `variable` is a Lean keyword, hence `var`. -/
structure FoxRecord where
  var : String
  value : ℚ
deriving DecidableEq

/-- The `result` object of the Fox ESS body; `datas` may be absent. -/
structure FoxResult where
  datas : Option (List FoxRecord)
deriving DecidableEq

/-- The Fox ESS body; `result` may be absent. -/
structure FoxBody where
  result : Option FoxResult
deriving DecidableEq

/-- A JSON field value: the snapshot mixes strings and raw numbers. -/
inductive JVal where
  | str (s : String)
  | num (q : ℚ)
deriving DecidableEq

/-- The normalized vendor-2 snapshot sent with HTTP 200. -/
structure FoxSnapshot where
  solar_kw : JVal
  battery_percent : JVal
  grid_kw : JVal
deriving DecidableEq

/-- Outcome of the `/api/foxess` handler on a successfully fetched body. -/
inductive FoxRouteResult where
  | ok (snap : FoxSnapshot)
  | notFound (msg : String)
deriving DecidableEq

/-- `datas.find(d => d.variable === name)`. -/
def jsFind (datas : List FoxRecord) (name : String) : Option FoxRecord :=
  datas.find? (fun d => d.var = name)

/-- `find(...)?.value || 0`. -/
def jsValueOrZero (r : Option FoxRecord) : ℚ :=
  ((r.map FoxRecord.value).getD 0)

/-- The `/api/foxess` handler's normalization of an upstream body. -/
def foxRoute (body : FoxBody) : FoxRouteResult :=
  match body.result with
  | none => .notFound "Fox ESS data not found in API response (v1 endpoint)."
  | some result =>
    let datas := result.datas.getD []
    let pvPower := jsValueOrZero (jsFind datas "pvPower")
    let soc := jsValueOrZero (jsFind datas "SoC")
    let gridPower := jsValueOrZero (jsFind datas "gridPower")
    .ok ⟨.str (toFixed2 pvPower), .num soc, .str (toFixed2 gridPower)⟩

/-!
## Discovery resolver (`src/unnamed/part_002`, lines 31-42)

The `/api/myenergi` handler there calls the director with
`validateStatus: () => true`, so axios resolves with a response for every
HTTP status and rejects only on a transport-level failure; the handler then
requires `headers['x_myenergi-asn']` to be a string of positive length,
throwing the discovery-failure error otherwise. A transport rejection skips
that check and lands in the route's `catch` with the transport's own
message.
-/

/-- A director response: its HTTP status and the `x_myenergi-asn` header,
absent when the upstream did not send it. -/
structure DirectorResponse where
  status : Nat
  asnHeader : Option String
deriving DecidableEq

/-- Outcome of the director call: a response (any status, thanks to
`validateStatus: () => true`) or a transport-level rejection. -/
inductive DirectorOutcome where
  | response (r : DirectorResponse)
  | failure (msg : String)
deriving DecidableEq

/-- The discovery-failure error message thrown by the handler. -/
def discoveryFailedMsg : String :=
  "Failed to get server address (ASN) from Myenergi director."

/-- The discovery step: return the header value, or fail. -/
def resolve : DirectorOutcome → Except String String
  | .response r =>
    match r.asnHeader with
    | some h => if 0 < h.length then .ok h else .error discoveryFailedMsg
    | none => .error discoveryFailedMsg
  | .failure m => .error m

/-!
## Digest handshake, round 1 (`src/api/index.js`, lines 35-48)

The probe `await axios.get(myenergiApiEndpoint)` uses axios's default
`validateStatus`, so a 2xx answer resolves the promise and any other status
rejects it with `error.response` set; a transport failure rejects with
`error.response` undefined. The source never assigns the probe's resolved
value: `initialResponse` is assigned only inside the `catch`, when
`error.response.status === 401`. Dereferencing the still-undefined variable
afterwards raises a `TypeError`.
-/

/-- An HTTP response as the handshake sees it: status, the
`www-authenticate` header if present, and the body text. -/
structure HttpResp where
  status : Nat
  wwwAuthenticate : Option String
  body : String
deriving DecidableEq

/-- Outcome of one axios call under the default `validateStatus`:
`success` carries a 2xx response, `httpError` a non-2xx response
(`error.response`), `transportError` a rejection with no response at all
(DNS failure, connection reset, timeout). -/
inductive AxiosResult where
  | success (r : HttpResp)
  | httpError (r : HttpResp)
  | transportError
deriving DecidableEq

/-- The error message of the probe's `else` branch, with
`error.response?.status` interpolated (`"undefined"` when there is no
response). -/
def authChallengeFailMsg (s : String) : String :=
  "Failed to get auth challenge. Status: " ++ s

/-- Lines 35-44: the probe's try/catch. `ok none` is the resolved-promise
path, on which `initialResponse` is never assigned. -/
def probeStep : AxiosResult → Except String (Option HttpResp)
  | .success _ => .ok none
  | .httpError r =>
    if r.status = 401 then .ok (some r)
    else .error (authChallengeFailMsg (toString r.status))
  | .transportError => .error (authChallengeFailMsg "undefined")

/-- The `TypeError` raised by `initialResponse.headers` when
`initialResponse` is undefined. -/
def typeErrorHeaders : String := "Cannot read properties of undefined (reading 'headers')"

/-- How round 1 of the handshake can end. The `body` constructor expresses
the specification's claimed immediate return of a 2xx body; the source has
no branch producing it. -/
inductive Round1 where
  | body (b : String)
  | challenge (h : String)
  | failed (msg : String)
deriving DecidableEq

/-- Round 1 end-to-end: the probe, then lines 46-47 reading the
`www-authenticate` header off `initialResponse`. -/
def round1 (probe : AxiosResult) : Round1 :=
  match probeStep probe with
  | .error e => .failed e
  | .ok none => .failed typeErrorHeaders
  | .ok (some r) =>
    match r.wwwAuthenticate with
    | none => .failed "WWW-Authenticate header missing in response."
    | some h => .challenge h

/-!
## Challenge parsing (`src/api/index.js`, lines 50-57)

`authHeader.split(/, | /)` splits on a `", "` pair, or else a single space.
Each part is split by `part.split(/=(.+)/)`: the regex matches at the first
`'='` that has at least one character after it, yielding `[key, value]`;
a part with no such `'='` yields only `[part]`, leaving `value` undefined,
and then `value.replace(/"/g, '')` raises a `TypeError` whenever `key`
(the whole part) is non-empty. `replace(/"/g, '')` removes every
double-quote character from the value. Duplicate keys overwrite, as in a
JavaScript object literal.
-/

/-- Split on `/, | /`: the accumulator holds the current token reversed. -/
def splitChallengeAux : List Char → List Char → List String
  | [], acc => [String.mk acc.reverse]
  | ',' :: ' ' :: rest, acc => String.mk acc.reverse :: splitChallengeAux rest []
  | ' ' :: rest, acc => String.mk acc.reverse :: splitChallengeAux rest []
  | c :: rest, acc => splitChallengeAux rest (c :: acc)

/-- `authHeader.split(/, | /)`. -/
def splitChallenge (s : String) : List String := splitChallengeAux s.data []

/-- First `'='` with a non-empty remainder: `some (key, value)` when the
regex `/=(.+)/` matches, `none` otherwise. -/
def splitEq : List Char → Option (List Char × List Char)
  | [] => none
  | '=' :: c :: rest => some ([], c :: rest)
  | c :: rest => (splitEq rest).map (fun kv => (c :: kv.1, kv.2))

/-- The `TypeError` raised by `value.replace` when `value` is undefined. -/
def typeErrorReplace : String := "Cannot read properties of undefined (reading 'replace')"

/-- `value.replace(/"/g, '')`. -/
def stripQuotes (v : List Char) : String := String.mk (v.filter (fun c => c ≠ '"'))

/-- One step of the source's `reduce`: errors propagate, an empty key is
skipped, a missing `'='` on a non-empty part raises the `TypeError`. -/
def parseStep (acc : Except String (List (String × String))) (part : String) :
    Except String (List (String × String)) :=
  match acc with
  | .error e => .error e
  | .ok l =>
    match splitEq part.data with
    | some kv =>
      if kv.1 = [] then .ok l
      else .ok (l ++ [(String.mk kv.1, stripQuotes kv.2)])
    | none => if part = "" then .ok l else .error typeErrorReplace

/-- Lines 50-54: the whole `reduce` over the split parts. -/
def parseChallenge (h : String) : Except String (List (String × String)) :=
  (splitChallenge h).foldl parseStep (.ok [])

/-- Property lookup on the accumulated object: the last assignment wins. -/
def objGet (l : List (String × String)) (k : String) : Option String :=
  ((l.filter (fun p => p.1 = k)).map Prod.snd).getLast?

/-- The challenge parameters destructured on line 56. -/
structure Challenge where
  realm : String
  nonce : String
  qop : Option String
  opq : Option String
deriving DecidableEq

/-- JavaScript falsiness of a possibly-undefined string: undefined or
empty. -/
def jsFalsy : Option String → Bool
  | none => true
  | some s => s == ""

/-- Lines 50-57 end-to-end: parse the header, then the
`if (!realm || !nonce)` guard; on success the handshake proceeds with the
parsed parameters (the source field `opaque` is named `opq` here). -/
def checkChallenge (h : String) : Except String Challenge :=
  match parseChallenge h with
  | .error e => .error e
  | .ok params =>
    if jsFalsy (objGet params "realm") || jsFalsy (objGet params "nonce") then
      .error "Invalid WWW-Authenticate header received."
    else
      .ok ⟨(objGet params "realm").getD "", (objGet params "nonce").getD "",
           objGet params "qop", objGet params "opaque"⟩

/-!
## Shape of the hex digest
-/

/-- Every nibble rendering is one of the sixteen lowercase hex characters. -/
theorem hexDigit_mem (n : Nat) : hexDigit n ∈ ("0123456789abcdef").data := by
  match n with
  | 0 | 1 | 2 | 3 | 4 | 5 | 6 | 7 | 8 | 9 | 10 | 11 | 12 | 13 | 14 => decide
  | n + 15 => show 'f' ∈ _; decide

/-- The MD5 byte digest always has sixteen bytes. -/
theorem md5Bytes_length (msg : List Nat) : (md5Bytes msg).length = 16 := by
  simp [md5Bytes, leBytes]

/-- Flattening two-character chunks doubles the length. -/
theorem flatten_byteHex_length (l : List Nat) :
    ((l.map byteHex).flatten).length = 2 * l.length := by
  induction l with
  | nil => simp
  | cons a t ih => simp [byteHex, ih]; ring

/-- The hex digest is 32 characters long. -/
theorem md5Hex_length (s : String) : (md5Hex s).length = 32 := by
  show (((md5Bytes (strBytes s)).map byteHex).flatten).length = 32
  rw [flatten_byteHex_length, md5Bytes_length]

/-- Every character of the hex digest is a lowercase hex character. -/
theorem md5Hex_chars (s : String) :
    ∀ c ∈ (md5Hex s).data, c ∈ ("0123456789abcdef").data := by
  intro c hc
  have hc' : c ∈ ((md5Bytes (strBytes s)).map byteHex).flatten := hc
  rcases List.mem_flatten.mp hc' with ⟨chunk, hchunk, hcc⟩
  rcases List.mem_map.mp hchunk with ⟨b, _, rfl⟩
  rcases hcc with _ | ⟨_, _ | ⟨_, h⟩⟩
  · exact hexDigit_mem _
  · exact hexDigit_mem _
  · exact absurd h (List.not_mem_nil c)

/-!
## Claim theorems
-/

/-- C1: for every fixed identity, secret, realm, nonce, qop, cnonce, method
and path, the digest negotiator computes `HA1 = md5(identity ":" realm ":"
secret)`, `HA2 = md5(method ":" path)`, fixes `nc = "00000001"`, and computes
`response = md5(HA1 ":" nonce ":" nc ":" cnonce ":" qop ":" HA2)`, a 16-byte
digest rendered as 32 lowercase hex characters. The computation is a pure
function of these inputs (the challenge's `opaque` parameter never enters
it), so identical inputs give the identical response string; the last
conjunct pins the response on a concrete known-answer vector. -/
theorem digestResponse_spec :
    (∀ username password realm nonce qop cnonce method uri : String,
      digestResponse username password realm nonce qop cnonce method uri =
        md5Hex (md5Hex (username ++ ":" ++ realm ++ ":" ++ password) ++ ":" ++
          nonce ++ ":" ++ "00000001" ++ ":" ++ cnonce ++ ":" ++ qop ++ ":" ++
          md5Hex (method ++ ":" ++ uri)))
    ∧ (∀ s : String, (md5Bytes (strBytes s)).length = 16)
    ∧ (∀ s : String, (md5Hex s).length = 32)
    ∧ (∀ s : String, ∀ c ∈ (md5Hex s).data, c ∈ ("0123456789abcdef").data)
    ∧ digestResponse "user" "pass" "test@host" "abc123" "auth" "0a4f113b"
        "GET" "/cgi-jstatus-E" = "81a0063279f0641404f74813d62a4f61" := by
  refine ⟨fun _ _ _ _ _ _ _ _ => rfl, fun s => md5Bytes_length (strBytes s),
    md5Hex_length, md5Hex_chars, ?_⟩
  set_option maxRecDepth 10000 in decide

/-- C1 witness: the shape facts at a concrete string and character. -/
theorem digestResponse_spec_witness :
    (md5Hex "abc").length = 32 ∧ '9' ∈ ("0123456789abcdef").data := by
  refine ⟨digestResponse_spec.2.2.1 "abc", ?_⟩
  exact digestResponse_spec.2.2.2.1 "abc" '9'
    (by set_option maxRecDepth 10000 in decide)

/-- C2: for every discovery response carrying a non-empty
`x_myenergi-asn` header value `H`, `resolve` returns `H` whatever the HTTP
status; it fails exactly when the header is absent, empty, or the transport
call itself fails (embedding of `src/unnamed/part_002`, lines 31-42). -/
theorem resolve_spec :
    (∀ (st : Nat) (H : String), 0 < H.length →
      resolve (.response ⟨st, some H⟩) = .ok H)
    ∧ (∀ st : Nat, resolve (.response ⟨st, none⟩) = .error discoveryFailedMsg)
    ∧ (∀ st : Nat, resolve (.response ⟨st, some ""⟩) = .error discoveryFailedMsg)
    ∧ (∀ m : String, resolve (.failure m) = .error m) := by
  refine ⟨fun st H h => ?_, fun st => rfl, fun st => rfl, fun m => rfl⟩
  simp [resolve, h]

/-- C2 witness: a client-error status still resolves to the header value. -/
theorem resolve_spec_witness :
    resolve (.response ⟨401, some "s18.myenergi.net"⟩) = .ok "s18.myenergi.net" :=
  resolve_spec.1 401 "s18.myenergi.net" (by decide)

/-- C3 counterexample: a 2xx answer to the unauthenticated probe does not
return the response body; the probe's resolved value is never assigned to
`initialResponse`, so round 1 fails with the `TypeError` from dereferencing
the undefined variable. -/
theorem round1_success_counterexample :
    round1 (.success ⟨200, none, "BODY"⟩) = .failed typeErrorHeaders
    ∧ round1 (.success ⟨200, none, "BODY"⟩) ≠ .body "BODY" := by
  exact ⟨rfl, by decide⟩

/-- C3 amended: a 2xx probe answer makes round 1 fail with the `TypeError`
(no second request); any non-401 error status fails with the
challenge-failure error (no second request); only a 401 proceeds, to
challenge parsing when the header is present and to the missing-header
error otherwise. -/
theorem round1_amended :
    (∀ r : HttpResp, round1 (.success r) = .failed typeErrorHeaders)
    ∧ (∀ r : HttpResp, r.status ≠ 401 →
        round1 (.httpError r) = .failed (authChallengeFailMsg (toString r.status)))
    ∧ (∀ (r : HttpResp) (h : String), r.status = 401 → r.wwwAuthenticate = some h →
        round1 (.httpError r) = .challenge h)
    ∧ (∀ r : HttpResp, r.status = 401 → r.wwwAuthenticate = none →
        round1 (.httpError r) = .failed "WWW-Authenticate header missing in response.") := by
  refine ⟨fun r => rfl, fun r h => ?_, fun r h hs hw => ?_, fun r hs hw => ?_⟩
  · simp [round1, probeStep, h]
  · simp [round1, probeStep, hs, hw]
  · simp [round1, probeStep, hs, hw]

/-- C3 witness: the amended behavior at concrete probe outcomes. -/
theorem round1_amended_witness :
    round1 (.httpError ⟨500, none, ""⟩) = .failed (authChallengeFailMsg "500")
    ∧ round1 (.httpError ⟨401, some "Digest", ""⟩) = .challenge "Digest" :=
  ⟨round1_amended.2.1 ⟨500, none, ""⟩ (by decide),
   round1_amended.2.2.1 ⟨401, some "Digest", ""⟩ "Digest" rfl rfl⟩

set_option maxRecDepth 10000 in
/-- C4: a standard challenge header, which necessarily begins with the bare
scheme token `Digest`, makes the parser raise the `value.replace`
`TypeError` even though realm and nonce are present, so the handshake never
proceeds; stripped of the scheme token the very same parameters parse and
the handshake proceeds with them, which is the behavior the claim (and the
guard on line 57) describes. -/
theorem challengeParse_bug_eval :
    checkChallenge "Digest realm=\"MyEnergi\", nonce=\"abc123\", qop=\"auth\"" =
      .error typeErrorReplace
    ∧ checkChallenge "realm=\"MyEnergi\", nonce=\"abc123\", qop=\"auth\"" =
      .ok ⟨"MyEnergi", "abc123", some "auth", none⟩
    ∧ checkChallenge "realm=\"r\" qop=\"auth\"" =
      .error "Invalid WWW-Authenticate header received." := by
  exact ⟨rfl, rfl, rfl⟩

set_option maxRecDepth 10000 in
/-- C5: the signed-request builder computes
`signature = md5(path "\r\n" secret "\r\n" timestamp)` in lowercase hex;
being a function of exactly `(secret, path, timestamp)` it is deterministic,
and at the reference input each single-input change changes the output. -/
theorem foxSignature_spec :
    (∀ (token path : String) (timestamp : Nat),
      foxSignature token path timestamp =
        md5Hex (path ++ "\r\n" ++ token ++ "\r\n" ++ toString timestamp))
    ∧ foxSignature "tok" "/api/v1/device/realtime" 1700000000000 =
        "48e5540f6c24373d5f27f36e0e7905a5"
    ∧ foxSignature "tok2" "/api/v1/device/realtime" 1700000000000 ≠
        foxSignature "tok" "/api/v1/device/realtime" 1700000000000
    ∧ foxSignature "tok" "/api/v1/device/realtime2" 1700000000000 ≠
        foxSignature "tok" "/api/v1/device/realtime" 1700000000000
    ∧ foxSignature "tok" "/api/v1/device/realtime" 1700000000001 ≠
        foxSignature "tok" "/api/v1/device/realtime" 1700000000000 := by
  refine ⟨fun _ _ _ => rfl, by decide, by decide, by decide, by decide⟩

/-- C6: vendor-1 normalization renders `div / 1000` through `toFixed(2)` and
passes `stat` through unmodified; raw `1234` W yields `"1.23"` and the
boundary case `999` W yields `"1.00"`. -/
theorem myenergiNormalize_spec :
    (∀ (e : EddiRecord) (rest : List EddiRecord),
      myenergiRoute ⟨some (e :: rest)⟩ = .ok ⟨toFixed2 (e.div / 1000), e.stat⟩)
    ∧ toFixed2 ((1234 : ℚ) / 1000) = "1.23"
    ∧ toFixed2 ((999 : ℚ) / 1000) = "1.00" := by
  refine ⟨fun e rest => by simp [myenergiRoute, ratDiv_eq], ?_, ?_⟩ <;>
    rw [← ratDiv_eq] <;> decide

/-- C7 counterexample: a body without the `eddi` key is answered with the
HTTP 500 `TypeError` message, not with the 404 data-not-found answer the
claim requires for an absent device-type key. -/
theorem myenergiRoute_missingKey_counterexample :
    myenergiRoute ⟨none⟩ = .serverError typeErrorIndex0
    ∧ myenergiRoute ⟨none⟩ ≠ .notFound "Eddi data not found in API response." := by
  exact ⟨rfl, by decide⟩

/-- C7 amended: the normalizer takes the first entry of the `eddi` array and
fails with the 404 data-not-found answer when that array is empty; when the
key is absent the `undefined[0]` `TypeError` is caught and surfaced as an
HTTP 500 instead. -/
theorem myenergiRoute_amended (o : Option (List EddiRecord)) :
    (o = some [] →
      myenergiRoute ⟨o⟩ = .notFound "Eddi data not found in API response.")
    ∧ (o = none → myenergiRoute ⟨o⟩ = .serverError typeErrorIndex0)
    ∧ (∀ (e : EddiRecord) (rest : List EddiRecord), o = some (e :: rest) →
        myenergiRoute ⟨o⟩ = .ok ⟨toFixed2 (e.div / 1000), e.stat⟩) := by
  refine ⟨fun h => ?_, fun h => ?_, fun e rest h => ?_⟩ <;> subst h
  · rfl
  · rfl
  · simp [myenergiRoute, ratDiv_eq]

/-- C7 witness: the amended behavior at concrete bodies. -/
theorem myenergiRoute_amended_witness :
    myenergiRoute ⟨some []⟩ = .notFound "Eddi data not found in API response."
    ∧ myenergiRoute ⟨some [⟨1234, 3⟩]⟩ = .ok ⟨"1.23", 3⟩ := by
  refine ⟨(myenergiRoute_amended (some [])).1 rfl, ?_⟩
  have h := (myenergiRoute_amended (some [⟨1234, 3⟩])).2.2 ⟨1234, 3⟩ [] rfl
  rw [h, ← ratDiv_eq]
  decide

/-- C8: for every vendor-2 body that did produce a `result`, the route
answers a successful snapshot, and each metric whose record is absent from
the `datas` list is substituted by zero: missing `pvPower` or `gridPower`
gives the formatted `"0.00"`, and a missing `SoC` record gives
`battery_percent = 0`. -/
theorem foxRoute_defaults_spec (res : FoxResult) :
    ∃ snap : FoxSnapshot, foxRoute ⟨some res⟩ = .ok snap
      ∧ (jsFind (res.datas.getD []) "pvPower" = none → snap.solar_kw = .str "0.00")
      ∧ (jsFind (res.datas.getD []) "SoC" = none → snap.battery_percent = .num 0)
      ∧ (jsFind (res.datas.getD []) "gridPower" = none → snap.grid_kw = .str "0.00") := by
  refine ⟨⟨.str (toFixed2 (jsValueOrZero (jsFind (res.datas.getD []) "pvPower"))),
          .num (jsValueOrZero (jsFind (res.datas.getD []) "SoC")),
          .str (toFixed2 (jsValueOrZero (jsFind (res.datas.getD []) "gridPower")))⟩,
        rfl, fun h => ?_, fun h => ?_, fun h => ?_⟩ <;> rw [h]
  · show JVal.str (toFixed2 (jsValueOrZero none)) = JVal.str "0.00"
    decide
  · show JVal.num (jsValueOrZero none) = JVal.num 0
    decide
  · show JVal.str (toFixed2 (jsValueOrZero none)) = JVal.str "0.00"
    decide

/-- C8 witness: a body with an empty record list yields the all-default
snapshot with HTTP 200. -/
theorem foxRoute_defaults_spec_witness :
    foxRoute ⟨some ⟨some []⟩⟩ = .ok ⟨.str "0.00", .num 0, .str "0.00"⟩ := by
  obtain ⟨snap, hok, hpv, hsoc, hgrid⟩ := foxRoute_defaults_spec ⟨some []⟩
  have h1 := hpv rfl
  have h2 := hsoc rfl
  have h3 := hgrid rfl
  rw [hok]
  obtain ⟨a, b, c⟩ := snap
  simp_all

/-- C9 counterexample: a transport-level failure during the probe is emitted
through the very same challenge-failure message template that classifies
non-401 HTTP rejections, with the status rendered `"undefined"`; the code
has no distinct transport classification. -/
theorem probe_transport_counterexample :
    probeStep .transportError = .error (authChallengeFailMsg "undefined")
    ∧ probeStep (.httpError ⟨500, none, ""⟩) = .error (authChallengeFailMsg "500") :=
  ⟨rfl, rfl⟩

/-- C9 amended: a transport failure during the probe is reported through the
same challenge-failure classification as a non-401 HTTP rejection — the
template with the status interpolated, `"undefined"` in the transport case —
rather than as a distinct transport error. -/
theorem probe_transport_amended (r : HttpResp) (h : r.status ≠ 401) :
    probeStep .transportError = .error (authChallengeFailMsg "undefined")
    ∧ probeStep (.httpError r) = .error (authChallengeFailMsg (toString r.status)) :=
  ⟨rfl, by simp [probeStep, h]⟩

/-- C9 witness: the amended behavior against a concrete 403 rejection. -/
theorem probe_transport_amended_witness :
    probeStep .transportError = .error (authChallengeFailMsg "undefined")
    ∧ probeStep (.httpError ⟨403, none, ""⟩) = .error (authChallengeFailMsg "403") :=
  probe_transport_amended ⟨403, none, ""⟩ (by decide)

/-- C10: every successful vendor-2 snapshot renders `solar_kw` and `grid_kw`
through `toFixed(2)` as strings while `battery_percent` is the raw looked-up
upstream value as a number, and a string-valued field never equals a
number-valued one, so the three fields do not share one numeric
representation. -/
theorem foxSnapshot_repr_spec (res : FoxResult) :
    foxRoute ⟨some res⟩ = .ok
      ⟨.str (toFixed2 (jsValueOrZero (jsFind (res.datas.getD []) "pvPower"))),
       .num (jsValueOrZero (jsFind (res.datas.getD []) "SoC")),
       .str (toFixed2 (jsValueOrZero (jsFind (res.datas.getD []) "gridPower")))⟩
    ∧ (∀ (s : String) (q : ℚ), JVal.str s ≠ JVal.num q) :=
  ⟨rfl, fun _ _ h => JVal.noConfusion h⟩

/-- C10 witness: a concrete body whose state of charge stays a raw number
while the power figures are formatted strings. -/
theorem foxSnapshot_repr_spec_witness :
    foxRoute ⟨some ⟨some [⟨"SoC", 55⟩]⟩⟩ = .ok ⟨.str "0.00", .num 55, .str "0.00"⟩
    ∧ JVal.str "55.00" ≠ JVal.num 55 := by
  obtain ⟨h1, h2⟩ := foxSnapshot_repr_spec ⟨some [⟨"SoC", 55⟩]⟩
  exact ⟨by rw [h1]; decide, h2 "55.00" 55⟩

end EnergyDashboard
